import Mathlib

/-!
Verification of the ARIAC example node, a shallow embedding of
src/src/ariac_example/src/ariac_example_node.cpp.

Modelling conventions:
- ROS float32/float64 message fields are modelled as rational numbers; the
  source only ever compares them with exact equality or subtraction and a
  strict order, which the rational model reflects exactly.
- Each ROS log site becomes one LogEvent constructor carrying the dynamic
  fields that appear in its stream expression.  Rate limiting of the
  THROTTLE variants is a wall-clock concern and outside the model: a
  throttled site is modelled as firing whenever its guard fires.
- Every callback becomes a pure function from the current MyCompetition
  state and the incoming message to the new state, the emitted log events,
  and the published messages.  ROS serialises callback delivery into the
  single instance, so a sequence of deliveries is a left fold.
-/

namespace AriacExample

/-- External schema: one order record (osrf_gear/Order); the node logs it
verbatim and stores it, never reading its fields, so only its identity
matters here. -/
structure Order where
  order_id : String
  deriving DecidableEq, Repr

/-- External schema: sensor_msgs/JointState, the fields consumed. -/
structure JointState where
  name : List String
  position : List ℚ
  velocity : List ℚ
  effort : List ℚ
  deriving DecidableEq, Repr

/-- External schema: one waypoint of trajectory_msgs/JointTrajectoryPoint.
A default-constructed point has all sequences empty and a zero duration. -/
structure JointTrajectoryPoint where
  positions : List ℚ
  velocities : List ℚ
  accelerations : List ℚ
  effort : List ℚ
  time_from_start : ℚ
  deriving DecidableEq, Repr

/-- External schema: trajectory_msgs/JointTrajectory, the fields the node
fills. -/
structure JointTrajectory where
  joint_names : List String
  points : List JointTrajectoryPoint
  deriving DecidableEq, Repr

/-- External schema: sensor_msgs/Range, the fields consumed by the
proximity callback. -/
structure RangeMsg where
  min_range : ℚ
  max_range : ℚ
  range : ℚ
  deriving DecidableEq, Repr

/-- One float-typed laser range sample: either a finite value or one of the
non-finite IEEE classes, which std::isfinite rejects. -/
inductive RangeVal where
  | finite (x : ℚ)
  | nan
  | posInf
  | negInf
  deriving DecidableEq, Repr

/-- Bool mirror of std::isfinite on a range sample. -/
def RangeVal.isFinite : RangeVal → Bool
  | RangeVal.finite _ => true
  | _ => false

/-- External schema: sensor_msgs/LaserScan, the field consumed. -/
structure LaserScanMsg where
  ranges : List RangeVal
  deriving DecidableEq, Repr

/-- External schema: std_srvs/Trigger response. -/
structure TriggerResponse where
  success : Bool
  message : String
  deriving DecidableEq, Repr

/-- One constructor per ROS log site of the node, carrying the dynamic
fields of its stream expression. -/
inductive LogEvent where
  | scoreLog (value : ℚ)
  | competitionEnded
  | orderReceived (o : Order)
  | jointStatesThrottled (m : JointState)
  | sendingArmToZero
  | sendingCommand (m : JointTrajectory)
  | logicalCameraObjects (count : Nat)
  | breakBeamTriggered
  | proximitySees
  | laserSees
  | waitingForCompetition
  | competitionReady
  | requestingStart
  | startFailed (message : String)
  | competitionStarted
  | setupComplete
  deriving DecidableEq, Repr

/-- The observable steps of the start_competition free function, in program
order: the exists check, the blocking existence wait, the single service
call, and each log. -/
inductive StartAction where
  | checkExists
  | waitForExistence
  | callStart
  | log (e : LogEvent)
  deriving DecidableEq, Repr

/-- Bool recogniser for the service-call step. -/
def StartAction.isCall : StartAction → Bool
  | StartAction.callStart => true
  | _ => false

/-- Bool recogniser for the blocking existence wait. -/
def StartAction.isWait : StartAction → Bool
  | StartAction.waitForExistence => true
  | _ => false

/-- start_competition (lines 31-51): check the endpoint; if absent, log,
block until it exists, log again; then log, issue the one call, and branch
on the response success flag.  The two external inputs are whether the
service already exists and the response the call returns. -/
def start_competition (service_exists : Bool) (resp : TriggerResponse) :
    List StartAction :=
  [StartAction.checkExists]
    ++ (if service_exists then []
        else [StartAction.log LogEvent.waitingForCompetition,
              StartAction.waitForExistence,
              StartAction.log LogEvent.competitionReady])
    ++ [StartAction.log LogEvent.requestingStart, StartAction.callStart]
    ++ (if resp.success then [StartAction.log LogEvent.competitionStarted]
        else [StartAction.log (LogEvent.startFailed resp.message)])

/-- The rendered text of the error log at line 47. -/
def failed_log_text (m : String) : String :=
  "Failed to start the competition: " ++ m

/-- The rendered error-log lines of a start_competition trace. -/
def error_logs (tr : List StartAction) : List String :=
  tr.filterMap (fun a =>
    match a with
    | StartAction.log (LogEvent.startFailed m) => some (failed_log_text m)
    | _ => none)

/-- main (line 219) runs the startup protocol exactly once, after the setup
log and before the dispatch loop; these are the pre-spin actions. -/
def main_startup_actions (service_exists : Bool) (resp : TriggerResponse) :
    List StartAction :=
  StartAction.log LogEvent.setupComplete :: start_competition service_exists resp

/-- The mutable fields of class MyCompetition (lines 150-156). -/
structure MyCompetition where
  competition_state_ : String
  current_score_ : ℚ
  received_orders_ : List Order
  current_joint_states_ : JointState
  has_been_zeroed_ : Bool
  deriving DecidableEq, Repr

/-- The state after the constructor (lines 57-62): current_score_ is 0 and
has_been_zeroed_ is false explicitly; competition_state_ is the
default-constructed empty string; the containers are empty. -/
def initMyCompetition : MyCompetition :=
  { competition_state_ := ""
    current_score_ := 0
    received_orders_ := []
    current_joint_states_ := { name := [], position := [], velocity := [], effort := [] }
    has_been_zeroed_ := false }

/-- current_score_callback (lines 65-72): log the value iff it differs from
the stored score, then store it. -/
def current_score_callback (s : MyCompetition) (data : ℚ) :
    MyCompetition × List LogEvent :=
  ({ s with current_score_ := data },
   if data ≠ s.current_score_ then [LogEvent.scoreLog data] else [])

/-- competition_state_callback (lines 75-82): log once on the transition
into "done", then store the new state string. -/
def competition_state_callback (s : MyCompetition) (data : String) :
    MyCompetition × List LogEvent :=
  ({ s with competition_state_ := data },
   if data = "done" ∧ s.competition_state_ ≠ "done" then [LogEvent.competitionEnded]
   else [])

/-- order_callback (lines 85-89): log the order and append it to the
write-only list. -/
def order_callback (s : MyCompetition) (o : Order) :
    MyCompetition × List LogEvent :=
  ({ s with received_orders_ := s.received_orders_ ++ [o] },
   [LogEvent.orderReceived o])

/-- C++ std::vector resize with fill value: truncate or pad. -/
def list_resize {α : Type} (l : List α) (n : Nat) (d : α) : List α :=
  l.take n ++ List.replicate (n - l.length) d

/-- A default-constructed JointTrajectoryPoint. -/
def default_traj_point : JointTrajectoryPoint :=
  { positions := [], velocities := [], accelerations := [], effort := [],
    time_from_start := 0 }

/-- The message built by send_arm_to_zero_state (lines 110-129): eight
joint names pushed in order, points resized to one default point, its
positions resized to the joint count filled with 0.0, and a transit
duration of 0.001 seconds. -/
def zero_trajectory : JointTrajectory :=
  let names := ["iiwa_joint_1", "iiwa_joint_2", "iiwa_joint_3", "iiwa_joint_4",
                "iiwa_joint_5", "iiwa_joint_6", "iiwa_joint_7",
                "linear_arm_actuator_joint"]
  let pts := list_resize ([] : List JointTrajectoryPoint) 1 default_traj_point
  let p0 := pts.headD default_traj_point
  let p0 := { p0 with positions := list_resize p0.positions names.length (0 : ℚ) }
  let p0 := { p0 with time_from_start := 1 / 1000 }
  { joint_names := names, points := pts.set 0 p0 }

/-- send_arm_to_zero_state (lines 107-132): build the zero-pose message,
log it, publish it.  It reads no instance state, so it is a constant. -/
def send_arm_to_zero_state : List LogEvent × List JointTrajectory :=
  ([LogEvent.sendingCommand zero_trajectory], [zero_trajectory])

/-- joint_state_callback (lines 92-104): throttled log, store the joint
states, and on the first-ever arrival flip the latch, log, and send the arm
to the zero pose. -/
def joint_state_callback (s : MyCompetition) (m : JointState) :
    MyCompetition × List LogEvent × List JointTrajectory :=
  let s1 := { s with current_joint_states_ := m }
  if s1.has_been_zeroed_ then
    (s1, [LogEvent.jointStatesThrottled m], [])
  else
    ({ s1 with has_been_zeroed_ := true },
     [LogEvent.jointStatesThrottled m, LogEvent.sendingArmToZero]
       ++ send_arm_to_zero_state.1,
     send_arm_to_zero_state.2)

/-- logical_camera_callback (lines 135-140): throttled log of the model
count. -/
def logical_camera_callback (models_count : Nat) : List LogEvent :=
  [LogEvent.logicalCameraObjects models_count]

/-- break_beam_callback (lines 143-148): log iff the detected flag is
set. -/
def break_beam_callback (object_detected : Bool) : List LogEvent :=
  if object_detected then [LogEvent.breakBeamTriggered] else []

/-- proximity_sensor_callback (lines 159-163): throttled log iff the max
range exceeds the measured range by more than 0.01. -/
def proximity_sensor_callback (msg : RangeMsg) : List LogEvent :=
  if msg.max_range - msg.range > 1 / 100 then [LogEvent.proximitySees] else []

/-- laser_profiler_callback (lines 165-171): count the finite samples and
emit the throttled log iff the count is positive. -/
def laser_profiler_callback (msg : LaserScanMsg) : List LogEvent :=
  let number_of_valid_ranges := msg.ranges.countP (fun r => r.isFinite)
  if number_of_valid_ranges > 0 then [LogEvent.laserSees] else []

/-- Deliver a sequence of score messages, collecting all logs. -/
def run_score (s : MyCompetition) : List ℚ → MyCompetition × List LogEvent
  | [] => (s, [])
  | v :: rest =>
    let step := current_score_callback s v
    let tail := run_score step.1 rest
    (tail.1, step.2 ++ tail.2)

/-- Deliver a sequence of competition-state messages, collecting the logs
of each call separately. -/
def run_competition_state (s : MyCompetition) :
    List String → MyCompetition × List (List LogEvent)
  | [] => (s, [])
  | m :: rest =>
    let step := competition_state_callback s m
    let tail := run_competition_state step.1 rest
    (tail.1, step.2 :: tail.2)

/-- Deliver a sequence of joint-state messages, collecting all published
trajectory commands. -/
def run_joint_states (s : MyCompetition) :
    List JointState → MyCompetition × List JointTrajectory
  | [] => (s, [])
  | m :: rest =>
    let step := joint_state_callback s m
    let tail := run_joint_states step.1 rest
    (tail.1, step.2.2 ++ tail.2)

/-! Helper lemmas shared by the claim theorems. -/

theorem run_joint_states_of_zeroed (ms : List JointState) :
    ∀ s : MyCompetition, s.has_been_zeroed_ = true →
      (run_joint_states s ms).2 = [] ∧
        (run_joint_states s ms).1.has_been_zeroed_ = true := by
  induction ms with
  | nil => intro s h; simpa [run_joint_states] using h
  | cons m rest ih =>
    intro s h
    simp only [run_joint_states, joint_state_callback, h, if_true]
    simpa using ih { s with current_joint_states_ := m, has_been_zeroed_ := true } rfl

theorem run_score_final_mem (p : List ℚ) :
    ∀ s : MyCompetition,
      (run_score s p).1.current_score_ = s.current_score_ ∨
        (run_score s p).1.current_score_ ∈ p := by
  induction p with
  | nil => intro s; exact Or.inl rfl
  | cons v rest ih =>
    intro s
    rcases ih { s with current_score_ := v } with h | h
    · exact Or.inr (by simp [run_score]; left; exact h)
    · exact Or.inr (by simp [run_score]; right; exact h)

/-- C1: from the constructed initial state, any nonempty sequence of
joint-state deliveries publishes the zero-pose trajectory exactly once
(and an empty sequence publishes nothing); the first delivery flips the
has_been_zeroed_ latch to true, and from any state with the latch set a
delivery publishes nothing and leaves the latch set, so no reset path
exists. -/
theorem zero_pose_published_once :
    (run_joint_states initMyCompetition []).2 = []
    ∧ (∀ (m : JointState) (ms : List JointState),
        (run_joint_states initMyCompetition (m :: ms)).2 = [zero_trajectory])
    ∧ (∀ m : JointState,
        ((joint_state_callback initMyCompetition m).1).has_been_zeroed_ = true)
    ∧ (∀ (s : MyCompetition) (m : JointState),
        (joint_state_callback { s with has_been_zeroed_ := true } m).2.2 = []
        ∧ ((joint_state_callback { s with has_been_zeroed_ := true } m).1).has_been_zeroed_
            = true) := by
  refine ⟨rfl, ?_, ?_, ?_⟩
  · intro m ms
    have hz := run_joint_states_of_zeroed ms
      { initMyCompetition with current_joint_states_ := m, has_been_zeroed_ := true } rfl
    simp [run_joint_states, joint_state_callback, initMyCompetition,
      send_arm_to_zero_state] at hz ⊢
    exact hz.1
  · intro m
    simp [joint_state_callback, initMyCompetition]
  · intro s m
    simp [joint_state_callback]

/-- C2: a score delivery emits the Score log iff the delivered value
differs from the stored score, after every call the stored score equals the
delivered value, and in a delivery sequence a repeated identical value
contributes no extra log. -/
theorem score_log_iff_changed :
    (∀ (s : MyCompetition) (v : ℚ),
        ((current_score_callback s v).2 ≠ [] ↔ v ≠ s.current_score_)
        ∧ (current_score_callback s v).2.length ≤ 1
        ∧ (current_score_callback s v).1.current_score_ = v)
    ∧ (∀ (s : MyCompetition) (v : ℚ) (vs : List ℚ),
        (run_score s (v :: v :: vs)).2 = (run_score s (v :: vs)).2) := by
  constructor
  · intro s v
    refine ⟨?_, ?_, rfl⟩
    · by_cases h : v = s.current_score_ <;> simp [current_score_callback, h]
    · by_cases h : v = s.current_score_ <;> simp [current_score_callback, h]
  · intro s v vs
    simp [run_score, current_score_callback]

/-- C3: the sequence delivered from the initial state with values running,
running, done emits the Competition ended log exactly on the third call;
in general a call emits that log iff the delivered value is done and the
stored state is not, and the stored state afterwards is the delivered
value. -/
theorem competition_ended_on_transition :
    (run_competition_state initMyCompetition ["running", "running", "done"]).2
        = [[], [], [LogEvent.competitionEnded]]
    ∧ (∀ (s : MyCompetition) (m : String),
        ((competition_state_callback s m).2 ≠ []
          ↔ (m = "done" ∧ s.competition_state_ ≠ "done")))
    ∧ (∀ (s : MyCompetition) (m : String),
        (competition_state_callback s m).1.competition_state_ = m) := by
  refine ⟨by decide, ?_, ?_⟩
  · intro s m
    by_cases h : m = "done" ∧ s.competition_state_ ≠ "done" <;>
      simp [competition_state_callback, h]
  · intro s m
    rfl

/-- C4: the startup call emits no error log when the response succeeds and
exactly one error log, holding the response message after a fixed prefix,
when it fails; the success log appears iff the response succeeded. -/
theorem start_error_logging (service_exists : Bool) (resp : TriggerResponse) :
    error_logs (start_competition service_exists resp)
        = (if resp.success then []
           else ["Failed to start the competition: " ++ resp.message])
    ∧ (StartAction.log LogEvent.competitionStarted ∈ start_competition service_exists resp
        ↔ resp.success = true) := by
  obtain ⟨suc, msg⟩ := resp
  cases suc <;> cases service_exists <;>
    simp [start_competition, error_logs, failed_log_text]

/-- C5: the proximity callback logs iff the max range exceeds the measured
range by more than the 0.01 threshold; a reading 0.02 below the max range
logs and a reading 0.005 below it does not, for every max range. -/
theorem proximity_log_iff_threshold :
    (∀ msg : RangeMsg,
        proximity_sensor_callback msg ≠ [] ↔ msg.max_range - msg.range > 1 / 100)
    ∧ (∀ mn mr : ℚ,
        proximity_sensor_callback
            { min_range := mn, max_range := mr, range := mr - 2 / 100 }
          = [LogEvent.proximitySees])
    ∧ (∀ mn mr : ℚ,
        proximity_sensor_callback
            { min_range := mn, max_range := mr, range := mr - 5 / 1000 }
          = []) := by
  refine ⟨?_, ?_, ?_⟩
  · intro msg
    by_cases h : msg.max_range - msg.range > 1 / 100 <;>
      simp [proximity_sensor_callback, h] <;>
      constructor <;> intro h2 <;> linarith
  · intro mn mr
    have h : mr - (mr - 2 / 100) = 2 / 100 := by ring
    simp [proximity_sensor_callback, h]
    norm_num
  · intro mn mr
    have h : mr - (mr - 5 / 1000) = 5 / 1000 := by ring
    simp [proximity_sensor_callback, h]
    norm_num

/-- C6: the laser callback logs iff the count of finite samples is
positive, equivalently iff some sample is finite; a scan of only
non-finite samples stays silent and a scan holding one finite sample
logs. -/
theorem laser_log_iff_finite :
    (∀ msg : LaserScanMsg,
        (laser_profiler_callback msg ≠ []
          ↔ 0 < msg.ranges.countP (fun r => r.isFinite))
        ∧ (laser_profiler_callback msg ≠ []
          ↔ ∃ r ∈ msg.ranges, r.isFinite = true))
    ∧ laser_profiler_callback
        { ranges := [RangeVal.nan, RangeVal.posInf, RangeVal.negInf] } = []
    ∧ laser_profiler_callback
        { ranges := [RangeVal.nan, RangeVal.finite 1] } = [LogEvent.laserSees] := by
  refine ⟨?_, by decide, by decide⟩
  intro msg
  constructor
  · by_cases h : 0 < msg.ranges.countP (fun r => r.isFinite) <;>
      simp [laser_profiler_callback, h]
  · rw [← List.countP_pos_iff]
    by_cases h : 0 < msg.ranges.countP (fun r => r.isFinite) <;>
      simp [laser_profiler_callback, h]

/-- C7: the zero-pose message is a constant: its joint names are the eight
fixed names in order, it holds exactly one trajectory point, that point has
eight positions all 0, its transit time is 0.001 seconds, and every call of
send_arm_to_zero_state publishes exactly this message after logging it. -/
theorem zero_state_message_fixed :
    send_arm_to_zero_state.2 = [zero_trajectory]
    ∧ zero_trajectory.joint_names
        = ["iiwa_joint_1", "iiwa_joint_2", "iiwa_joint_3", "iiwa_joint_4",
           "iiwa_joint_5", "iiwa_joint_6", "iiwa_joint_7",
           "linear_arm_actuator_joint"]
    ∧ zero_trajectory.points.length = 1
    ∧ zero_trajectory.points.map (fun p => p.positions) = [List.replicate 8 (0 : ℚ)]
    ∧ zero_trajectory.points.map (fun p => p.time_from_start) = [1 / 1000]
    ∧ send_arm_to_zero_state.1 = [LogEvent.sendingCommand zero_trajectory] := by
  refine ⟨rfl, rfl, rfl, by decide, ?_, rfl⟩
  simp [zero_trajectory, list_resize, default_traj_point]

/-- C8: the startup protocol is linear: its trace decomposes around exactly
one service call; the steps before the call are the exists check, then the
wait bracketed by its two info logs exactly when the service was absent,
then the request log; no wait or call follows the call; and the pre-spin
actions of main contain exactly one call. -/
theorem start_protocol_linear (service_exists : Bool) (resp : TriggerResponse) :
    ∃ pre post,
      start_competition service_exists resp = pre ++ StartAction.callStart :: post
      ∧ pre.countP (fun a => a.isCall) = 0
      ∧ post.countP (fun a => a.isCall) = 0
      ∧ (start_competition service_exists resp).countP (fun a => a.isCall) = 1
      ∧ pre = (if service_exists then
                 [StartAction.checkExists, StartAction.log LogEvent.requestingStart]
               else
                 [StartAction.checkExists,
                  StartAction.log LogEvent.waitingForCompetition,
                  StartAction.waitForExistence,
                  StartAction.log LogEvent.competitionReady,
                  StartAction.log LogEvent.requestingStart])
      ∧ post.countP (fun a => a.isWait) = 0
      ∧ ((start_competition service_exists resp).countP (fun a => a.isWait)
          = if service_exists then 0 else 1)
      ∧ (main_startup_actions service_exists resp).countP (fun a => a.isCall) = 1 := by
  obtain ⟨suc, msg⟩ := resp
  cases service_exists <;> cases suc <;>
    exact ⟨_, _, by
      refine ⟨rfl, ?_, ?_, ?_, rfl, ?_, ?_, ?_⟩ <;>
        simp [start_competition, main_startup_actions,
          StartAction.isCall, StartAction.isWait]⟩

/-- C9: from the constructed initial state, a first score delivery of 0
emits no log because the stored score starts at 0; and after any delivered
prefix, a delivery of 0 either stays silent or some earlier delivered value
was nonzero. -/
theorem first_zero_score_silent :
    (current_score_callback initMyCompetition 0).2 = []
    ∧ ∀ p : List ℚ,
        (current_score_callback (run_score initMyCompetition p).1 0).2 = []
        ∨ ∃ v ∈ p, v ≠ 0 := by
  constructor
  · rfl
  · intro p
    by_cases h : (run_score initMyCompetition p).1.current_score_ = 0
    · left
      simp [current_score_callback, h]
    · right
      rcases run_score_final_mem p initMyCompetition with h0 | hm
      · exact absurd h0 (by simpa [initMyCompetition] using h)
      · exact ⟨_, hm, h⟩

/-- C10: the stored competition state starts as the empty string, so a
first delivery of done logs Competition ended immediately, and the
sequence done, running, done logs it twice, once per entry into done. -/
theorem first_done_and_reentry :
    initMyCompetition.competition_state_ = ""
    ∧ (run_competition_state initMyCompetition ["done"]).2
        = [[LogEvent.competitionEnded]]
    ∧ (run_competition_state initMyCompetition ["done", "running", "done"]).2
        = [[LogEvent.competitionEnded], [], [LogEvent.competitionEnded]] := by
  refine ⟨rfl, by decide, by decide⟩

end AriacExample
